import Mathlib

/-!
# Verification of the GST Bill Reconciliation & Discrepancy Engine

Shallow embedding of the core of `gst_bill_analyzer_gemini.py`
(class `GeminiGSTAnalyzer`): rate resolution (`get_correct_gst_rate`),
line-item normalization (the item loop of `analyze_bill`), weighted tax
calculation (`calculate_correct_gst`), extraction validation
(`validate_extraction`) and result assembly (`analyze_bill`).

Python floats are modelled as rationals (ℚ); Python's `round(x, 2)`
(round-half-to-even on the decimal value) is modelled by `round2`.
Display-only strings (warning and discrepancy-detail messages) are
modelled by tagged values carrying the numbers that are interpolated into
them.  A runtime exception (Python `raise`) is modelled by
`Except.error`; the analysis core returns `Except String BillAnalysisResult`.
-/

set_option allowUnsafeReducibility true
attribute [semireducible] Rat.mul Rat.inv Rat.add Rat.sub Rat.neg Rat.div

namespace GSTBill

/-- Round half to even (banker's rounding), as Python's builtin `round`. -/
def roundHalfEven (x : ℚ) : ℤ :=
  let f := Int.fdiv x.num (x.den : ℤ)
  let r := x - (f : ℚ)
  if r < 1/2 then f
  else if 1/2 < r then f + 1
  else if f % 2 = 0 then f else f + 1

/-- Python `round(x, 2)`: round to 2 decimal places, ties to even. -/
def round2 (x : ℚ) : ℚ := (roundHalfEven (x * 100) : ℚ) / 100

/-- Boolean test that `needle` is a prefix of `hay` (over characters). -/
def isPrefixList (needle hay : List Char) : Bool :=
  match needle, hay with
  | [], _ => true
  | _ :: _, [] => false
  | a :: as, b :: bs => a = b && isPrefixList as bs

/-- Boolean test that `needle` occurs as a contiguous sublist of `hay`. -/
def isInfixList (needle hay : List Char) : Bool :=
  match hay with
  | [] => needle.isEmpty
  | _ :: rest => isPrefixList needle hay || isInfixList needle rest

/-- Python's `needle in hay` where `hay` is an (already lowercased)
character sequence: substring containment. -/
def strContains (hay : List Char) (needle : String) : Bool :=
  isInfixList needle.toList hay

/-- Python's `str.lower()` (ASCII), on the character sequence. -/
def lowerChars (s : String) : List Char :=
  s.toList.map Char.toLower

/-- A row of the `gst_items` table as returned by the catalog query
(`SELECT gst_rate, hsn_code, item_category`); SQL columns may be NULL. -/
structure CatalogRow where
  gst_rate : ℚ
  hsn_code : Option String
  item_category : Option String
deriving DecidableEq, Repr

/-- The Rate Catalog Store, abstracted over the SQL query of
`get_correct_gst_rate`: for an item name it either fails
(connection/store error, modelled `Except.error`) or returns the first
matching row, if any. -/
def Catalog : Type := String → Except Unit (Option CatalogRow)

def dry_fruits_keywords : List String :=
  ["cashew", "almond", "walnut", "dates", "raisin", "pistachio",
   "badam", "kaju", "pista", "kishmish", "anjeer", "fig",
   "mixed nuts", "mixed bites", "dry fruit"]

def electronics_keywords : List String :=
  ["mobile", "phone", "laptop", "computer", "charger", "earphone",
   "headphone", "tv", "television", "ac", "refrigerator", "washing machine"]

def medical_keywords : List String :=
  ["medicine", "tablet", "syrup", "injection", "capsule",
   "test", "pathology", "xray", "scan"]

def food_items_0_percent : List String :=
  ["parotta", "chapati", "roti", "bread", "milk", "curd",
   "vegetables", "fruits", "eggs"]

def food_items_5_percent : List String :=
  ["dosa", "idli", "vada", "rice", "dal", "sambar",
   "biryani", "curry", "meal", "coffee", "tea"]

/-- The keyword cascade of `get_correct_gst_rate` (the five `for` loops
run when the catalog query succeeds but returns no row). -/
def keywordFallback (item_name : String) : ℚ × Option String × Option String :=
  let item_lower := lowerChars item_name
  if dry_fruits_keywords.any (fun k => strContains item_lower k) then
    (5, some "08013200", some "Dry fruits and nuts")
  else if electronics_keywords.any (fun k => strContains item_lower k) then
    (18, none, some "Electronics")
  else if medical_keywords.any (fun k => strContains item_lower k) then
    (12, none, some "Medical supplies")
  else if food_items_0_percent.any (fun k => strContains item_lower k) then
    (0, none, some "Food items (fresh)")
  else if food_items_5_percent.any (fun k => strContains item_lower k) then
    (5, none, some "Restaurant services")
  else
    (5, none, some "Unknown (default 5%)")

/-- `GeminiGSTAnalyzer.get_correct_gst_rate`.  The whole body is wrapped
in `try`: a catalog failure jumps to the `except` handler, which returns
`(5.0, None, "Unknown")`.  A successful query with a row returns the row
verbatim; a successful query with no row falls through to the keyword
cascade. -/
def get_correct_gst_rate (catalog : Catalog) (item_name : String) :
    ℚ × Option String × Option String :=
  match catalog item_name with
  | Except.error _ => (5, none, some "Unknown")
  | Except.ok (some row) => (row.gst_rate, row.hsn_code, row.item_category)
  | Except.ok none => keywordFallback item_name

/-- Dataclass `BillLineItem`. -/
structure BillLineItem where
  item_name : String
  original_name : String
  quantity : ℚ
  unit_price : ℚ
  total_price : ℚ
  hsn_code : Option String := none
  gst_rate : Option ℚ := none
  cgst : Option ℚ := none
  sgst : Option ℚ := none
  category : Option String := none
deriving DecidableEq, Repr

/-- One element of the extracted `items` array; every field may be
absent (Python `dict.get` with a default). -/
structure RawItem where
  original_name : Option String := none
  item_name : Option String := none
  quantity : Option ℚ := none
  unit_price : Option ℚ := none
  total_price : Option ℚ := none
deriving DecidableEq, Repr

/-- The semi-structured record produced by the extractor
(`gemini_result`); every field may be absent. -/
structure GeminiResult where
  store_name : Option String := none
  bill_number : Option String := none
  date : Option String := none
  gstin : Option String := none
  items : List RawItem := []
  gross_amount : Option ℚ := none
  discount : Option ℚ := none
  subtotal : Option ℚ := none
  cgst_charged : Option ℚ := none
  sgst_charged : Option ℚ := none
  igst_charged : Option ℚ := none
  total_gst_charged : Option ℚ := none
  grand_total : Option ℚ := none
deriving DecidableEq, Repr

/-- Tags for the warning strings appended by `validate_extraction`;
the formatted message text is display-only. -/
inductive Warning where
  | itemsSumMismatch : Warning
  | discountMismatch : Warning
  | discountRounding : Warning
  | totalsMismatch : Warning
  | unusualRate : Warning
  | missingStoreName : Warning
  | missingBillNumber : Warning
deriving DecidableEq, Repr

/-- Tags for the strings collected in `discrepancy_details`, carrying
the numbers interpolated into them. -/
inductive DiscrepancyDetail where
  | chargedVsCalculated : ℚ → ℚ → DiscrepancyDetail
  | overcharged : ℚ → DiscrepancyDetail
  | undercharged : ℚ → DiscrepancyDetail
  | zeroRateItem : String → DiscrepancyDetail
  | discountApplied : ℚ → ℚ → DiscrepancyDetail
deriving DecidableEq, Repr

/-- Dataclass `BillAnalysisResult`. -/
structure BillAnalysisResult where
  bill_number : Option String
  restaurant_name : Option String
  date : Option String
  items : List BillLineItem
  subtotal : ℚ
  total_gst_charged : ℚ
  total_cgst_charged : ℚ
  total_sgst_charged : ℚ
  grand_total : ℚ
  calculated_total_gst : ℚ := 0
  calculated_cgst : ℚ := 0
  calculated_sgst : ℚ := 0
  calculated_grand_total : ℚ := 0
  has_discrepancy : Bool := false
  discrepancy_amount : ℚ := 0
  discrepancy_details : List DiscrepancyDetail := []
  confidence_score : ℚ := 1
  warnings : List Warning := []
  gross_amount : ℚ := 0
  discount : ℚ := 0
  gstin : Option String := none
deriving DecidableEq, Repr

instance {ε α : Type} [DecidableEq ε] [DecidableEq α] : DecidableEq (Except ε α) :=
  fun a b =>
    match a, b with
    | Except.error e, Except.error f =>
        if h : e = f then isTrue (by rw [h]) else isFalse (by simp [h])
    | Except.ok x, Except.ok y =>
        if h : x = y then isTrue (by rw [h]) else isFalse (by simp [h])
    | Except.error _, Except.ok _ => isFalse (by simp)
    | Except.ok _, Except.error _ => isFalse (by simp)

/-- Python truthiness of `gemini_result.get('field')` for a string
field: falsy when absent or empty. -/
def isFalsy (s : Option String) : Bool :=
  match s with
  | none => true
  | some str => str.isEmpty

def valid_gst_rates : List ℚ := [0, 5, 12, 18, 28]

/-- `GeminiGSTAnalyzer.validate_extraction`: five arithmetic sanity
checks; each failed check subtracts its penalty from the confidence and
appends a warning; the confidence is clamped to `[0, 1]` at the end. -/
def validate_extraction (gemini_result : GeminiResult) (items : List BillLineItem) :
    ℚ × List Warning :=
  let gross_amount := gemini_result.gross_amount.getD 0
  let discount := gemini_result.discount.getD 0
  let subtotal := gemini_result.subtotal.getD 0
  let total_gst := gemini_result.total_gst_charged.getD 0
  let grand_total := gemini_result.grand_total.getD 0
  let items_total := (items.map (fun item => item.total_price)).sum
  let w1 : List Warning :=
    if 1 < |items_total - gross_amount| then [Warning.itemsSumMismatch] else []
  let c1 : ℚ := if 1 < |items_total - gross_amount| then 1 - 15/100 else 1
  let expected_subtotal := gross_amount - discount
  let tolerance : ℚ := if 100 < discount then 30 else 1
  let w2 := w1 ++
    (if tolerance < |expected_subtotal - subtotal| then [Warning.discountMismatch]
     else if 1 < |expected_subtotal - subtotal| then [Warning.discountRounding] else [])
  let c2 :=
    if tolerance < |expected_subtotal - subtotal| then c1 - 15/100
    else if 1 < |expected_subtotal - subtotal| then c1 - 5/100 else c1
  let calculated_total := subtotal + total_gst
  let w3 := w2 ++ (if 1 < |calculated_total - grand_total| then [Warning.totalsMismatch] else [])
  let c3 := if 1 < |calculated_total - grand_total| then c2 - 20/100 else c2
  let w4 := w3 ++
    (if 0 < subtotal ∧
        ¬ (valid_gst_rates.any
            (fun rate => decide (|total_gst / subtotal * 100 - rate| < 1/2))) = true
     then [Warning.unusualRate] else [])
  let c4 :=
    if 0 < subtotal ∧
        ¬ (valid_gst_rates.any
            (fun rate => decide (|total_gst / subtotal * 100 - rate| < 1/2))) = true
    then c3 - 10/100 else c3
  let w5 := w4 ++ (if isFalsy gemini_result.store_name then [Warning.missingStoreName] else [])
  let c5 := if isFalsy gemini_result.store_name then c4 - 5/100 else c4
  let w6 := w5 ++ (if isFalsy gemini_result.bill_number then [Warning.missingBillNumber] else [])
  let c6 := if isFalsy gemini_result.bill_number then c5 - 5/100 else c5
  (max 0 (min 1 c6), w6)

/-- `GeminiGSTAnalyzer.calculate_correct_gst`: weighted-average rate
over the items (skipping items with no resolved rate) applied to the
post-discount subtotal, split evenly, rounded to 2 decimals on return. -/
def calculate_correct_gst (items : List BillLineItem) (subtotal_after_discount : ℚ) :
    ℚ × ℚ × ℚ :=
  let total_item_amount := (items.map (fun item => item.total_price)).sum
  if total_item_amount = 0 then (0, 0, 0)
  else
    let weighted_gst_rate := items.foldl
      (fun acc item =>
        match item.gst_rate with
        | some rate => acc + rate * (item.total_price / total_item_amount)
        | none => acc) 0
    let total_gst := subtotal_after_discount * weighted_gst_rate / 100
    let cgst := total_gst / 2
    let sgst := total_gst / 2
    (round2 total_gst, round2 cgst, round2 sgst)

/-- The body of the per-item loop of `analyze_bill` (step 4): resolve
the rate, build the `BillLineItem` with an illustrative per-item split. -/
def normalizeItem (catalog : Catalog) (item_data : RawItem) : BillLineItem :=
  let item_name := item_data.item_name.getD ""
  let res := get_correct_gst_rate catalog item_name
  let gst_rate := res.1
  let hsn_code := res.2.1
  let category := res.2.2
  let total_price := item_data.total_price.getD 0
  let item_gst := total_price * gst_rate / 100
  { item_name := item_name
    original_name := item_data.original_name.getD item_name
    quantity := item_data.quantity.getD 1
    unit_price := item_data.unit_price.getD 0
    total_price := total_price
    hsn_code := hsn_code
    gst_rate := some gst_rate
    cgst := some (round2 (item_gst / 2))
    sgst := some (round2 (item_gst / 2))
    category := category }

/-- `GeminiGSTAnalyzer.analyze_bill`, steps 3–8 (from the extracted
record to the result).  The division `discount / gross_amount` in the
discount note of step 7 raises `ZeroDivisionError` in Python when
`gross_amount` is zero and `discount > 0`; that raise is modelled by
`Except.error`. -/
def analyze_bill (catalog : Catalog) (gemini_result : GeminiResult) :
    Except String BillAnalysisResult :=
  let gross_amount := gemini_result.gross_amount.getD 0
  let discount := gemini_result.discount.getD 0
  let subtotal := gemini_result.subtotal.getD 0
  let gstin := gemini_result.gstin
  let items := gemini_result.items.map (normalizeItem catalog)
  let v := validate_extraction gemini_result items
  let confidence_score := v.1
  let validation_warnings := v.2
  let c := calculate_correct_gst items subtotal
  let calculated_gst := c.1
  let calculated_cgst := c.2.1
  let calculated_sgst := c.2.2
  let calculated_total := round2 (subtotal + calculated_gst)
  let bill_gst := gemini_result.total_gst_charged.getD 0
  let bill_total := gemini_result.grand_total.getD 0
  let discrepancy_amount := round2 (bill_gst - calculated_gst)
  let has_discrepancy := decide (1/100 < |discrepancy_amount|)
  let discrepancy_details :=
    if has_discrepancy then
      [DiscrepancyDetail.chargedVsCalculated bill_gst calculated_gst,
       if 0 < discrepancy_amount then DiscrepancyDetail.overcharged |discrepancy_amount|
       else DiscrepancyDetail.undercharged |discrepancy_amount|] ++
      (items.filter
        (fun item => decide (item.gst_rate = some 0) && decide (0 < bill_gst))).map
        (fun item => DiscrepancyDetail.zeroRateItem item.item_name)
    else []
  let mkResult := fun (dd : List DiscrepancyDetail) =>
    ({ bill_number := gemini_result.bill_number
       restaurant_name := gemini_result.store_name
       date := gemini_result.date
       gstin := gstin
       items := items
       gross_amount := gross_amount
       discount := discount
       subtotal := subtotal
       total_gst_charged := bill_gst
       total_cgst_charged := gemini_result.cgst_charged.getD (bill_gst / 2)
       total_sgst_charged := gemini_result.sgst_charged.getD (bill_gst / 2)
       grand_total := bill_total
       calculated_total_gst := calculated_gst
       calculated_cgst := calculated_cgst
       calculated_sgst := calculated_sgst
       calculated_grand_total := calculated_total
       has_discrepancy := has_discrepancy
       discrepancy_amount := discrepancy_amount
       discrepancy_details := dd
       confidence_score := confidence_score
       warnings := validation_warnings } : BillAnalysisResult)
  if 0 < discount then
    if gross_amount = 0 then
      Except.error "ZeroDivisionError: float division by zero"
    else
      Except.ok (mkResult
        (DiscrepancyDetail.discountApplied discount (discount / gross_amount * 100)
          :: discrepancy_details))
  else Except.ok (mkResult discrepancy_details)

/-! ## Specification-side definitions

These definitions transcribe formulas of the specification/claims, to be
compared with the definitions transcribed from the source above. -/

/-- Σ item.total_price, the pre-discount item sum of §4.3. -/
def itemsTotal (items : List BillLineItem) : ℚ :=
  (items.map (fun item => item.total_price)).sum

/-- The claim's weighted rate
`W = Σ over items of (item.total_price / Σ item.total_price) × item.gst_rate`. -/
def specWeightedRate (items : List BillLineItem) : ℚ :=
  (items.map (fun item => item.total_price / itemsTotal items * item.gst_rate.getD 0)).sum

/-- The claim's `G = S × W / 100`. -/
def specG (items : List BillLineItem) (S : ℚ) : ℚ :=
  S * specWeightedRate items / 100

/-- The keyword table of §4.1 step 2, in its fixed check order. -/
def keywordTable : List (List String × (ℚ × Option String × Option String)) :=
  [(dry_fruits_keywords, (5, some "08013200", some "Dry fruits and nuts")),
   (electronics_keywords, (18, none, some "Electronics")),
   (medical_keywords, (12, none, some "Medical supplies")),
   (food_items_0_percent, (0, none, some "Food items (fresh)")),
   (food_items_5_percent, (5, none, some "Restaurant services"))]

/-- Spec-side keyword resolution: the first keyword set any of whose
keywords is a substring of the lowercased item name wins; if none
matches, the 5% default applies. -/
def keywordFallbackSpec (item_name : String) : ℚ × Option String × Option String :=
  match keywordTable.find?
      (fun entry => entry.1.any (fun k => strContains (lowerChars item_name) k)) with
  | some entry => entry.2
  | none => (5, none, some "Unknown (default 5%)")

/-! ## Helper lemmas -/

theorem foldl_weighted_eq (T : ℚ) (l : List BillLineItem) (a : ℚ)
    (h : ∀ i ∈ l, i.gst_rate.isSome) :
    l.foldl (fun acc item =>
      match item.gst_rate with
      | some rate => acc + rate * (item.total_price / T)
      | none => acc) a
    = a + (l.map (fun item => item.total_price / T * item.gst_rate.getD 0)).sum := by
  induction l generalizing a with
  | nil => simp
  | cons x xs ih =>
    obtain ⟨r, hr⟩ := Option.isSome_iff_exists.mp (h x (List.mem_cons_self x xs))
    rw [List.foldl_cons, List.map_cons, List.sum_cons]
    simp only [hr]
    rw [ih _ (fun i hi => h i (List.mem_cons_of_mem x hi))]
    simp only [Option.getD_some]
    ring

/-- C1: `calculate_correct_gst` returns `(round(G,2), round(G/2,2), round(G/2,2))`
with `G = S × W / 100`, `W` the total-price-weighted average of the item
rates, rounding applied only at the return; on a zero item sum it
returns `(0, 0, 0)` without dividing by zero. -/
theorem calculate_correct_gst_spec (items : List BillLineItem) (S : ℚ)
    (h : ∀ i ∈ items, i.gst_rate.isSome) :
    calculate_correct_gst items S =
      if itemsTotal items = 0 then (0, 0, 0)
      else (round2 (specG items S), round2 (specG items S / 2),
            round2 (specG items S / 2)) := by
  simp only [calculate_correct_gst, itemsTotal, specG, specWeightedRate]
  split
  · rfl
  · rw [foldl_weighted_eq _ _ _ h, zero_add]

def c1Items : List BillLineItem :=
  [{ item_name := "dosa", original_name := "dosa", quantity := 1, unit_price := 120,
     total_price := 120, gst_rate := some 5 },
   { item_name := "parotta", original_name := "parotta", quantity := 1, unit_price := 60,
     total_price := 60, gst_rate := some 0 }]

/-- Witness for C1 at a concrete two-item bill. -/
theorem calculate_correct_gst_spec_witness :
    calculate_correct_gst c1Items 230 =
      if itemsTotal c1Items = 0 then (0, 0, 0)
      else (round2 (specG c1Items 230), round2 (specG c1Items 230 / 2),
            round2 (specG c1Items 230 / 2)) :=
  calculate_correct_gst_spec c1Items 230 (by decide)

/-! ## Rate resolution (C3, C4, C9) -/

/-- A catalog whose query always succeeds with no matching row. -/
def okNoneCatalog : Catalog := fun _ => Except.ok none

/-- A catalog whose query always fails (store/connection error). -/
def failCatalog : Catalog := fun _ => Except.error ()

/-- A catalog holding a malformed row whose stored rate is 150. -/
def badCatalog : Catalog :=
  fun _ => Except.ok (some { gst_rate := 150, hsn_code := none, item_category := some "Luxury" })

theorem keywordFallback_bounds (item_name : String) :
    0 ≤ (keywordFallback item_name).1 ∧ (keywordFallback item_name).1 ≤ 100 := by
  simp only [keywordFallback]
  split_ifs <;> norm_num

/-- C3 counterexample: with a malformed catalog row whose stored rate is
150, `get_correct_gst_rate` returns 150, violating the `≤ 100` bound. -/
theorem get_correct_gst_rate_over100 :
    ¬ (get_correct_gst_rate badCatalog "soap").1 ≤ 100 := by decide

/-- C3 (amended): the resolved rate lies in `[0, 100]` provided any row
the catalog returns for the name has a stored rate in `[0, 100]`; the
keyword fallback, default and failure branches always stay in bounds. -/
theorem get_correct_gst_rate_bounds (catalog : Catalog) (item_name : String)
    (h : ∀ row, catalog item_name = Except.ok (some row) →
      0 ≤ row.gst_rate ∧ row.gst_rate ≤ 100) :
    0 ≤ (get_correct_gst_rate catalog item_name).1 ∧
      (get_correct_gst_rate catalog item_name).1 ≤ 100 := by
  unfold get_correct_gst_rate
  cases hc : catalog item_name with
  | error e => norm_num
  | ok o =>
    cases o with
    | none => exact keywordFallback_bounds item_name
    | some row => exact h row hc

/-- Witness for C3 (amended) at a concrete catalog and name. -/
theorem get_correct_gst_rate_bounds_witness :
    0 ≤ (get_correct_gst_rate okNoneCatalog "soap").1 ∧
      (get_correct_gst_rate okNoneCatalog "soap").1 ≤ 100 :=
  get_correct_gst_rate_bounds okNoneCatalog "soap"
    (by intro row hrow; simp [okNoneCatalog] at hrow)

/-- C4 counterexample: on catalog failure, an item name containing
"mobile" does NOT resolve through the keyword table to
`(18.0, null, "Electronics")`; the `except` handler returns
`(5.0, null, "Unknown")` instead. -/
theorem get_correct_gst_rate_failure_counterexample :
    get_correct_gst_rate failCatalog "mobile" = (5, none, some "Unknown") ∧
      get_correct_gst_rate failCatalog "mobile" ≠ (18, none, some "Electronics") := by
  decide

/-- C4 (amended): a catalog failure never propagates; `get_correct_gst_rate`
degrades to the fixed handler default `(5.0, null, "Unknown")` for every
item name (not to the keyword/default cascade, which is inside the `try`). -/
theorem get_correct_gst_rate_failure (catalog : Catalog) (item_name : String) (e : Unit)
    (h : catalog item_name = Except.error e) :
    get_correct_gst_rate catalog item_name = (5, none, some "Unknown") := by
  unfold get_correct_gst_rate
  rw [h]

/-- Witness for C4 (amended) at a concrete failing catalog. -/
theorem get_correct_gst_rate_failure_witness :
    get_correct_gst_rate failCatalog "mobile" = (5, none, some "Unknown") :=
  get_correct_gst_rate_failure failCatalog "mobile" () rfl

theorem keywordFallback_eq_spec (item_name : String) :
    keywordFallback item_name = keywordFallbackSpec item_name := by
  unfold keywordFallback keywordFallbackSpec keywordTable
  by_cases h1 : dry_fruits_keywords.any (fun k => strContains (lowerChars item_name) k) = true <;>
  by_cases h2 : electronics_keywords.any (fun k => strContains (lowerChars item_name) k) = true <;>
  by_cases h3 : medical_keywords.any (fun k => strContains (lowerChars item_name) k) = true <;>
  by_cases h4 : food_items_0_percent.any (fun k => strContains (lowerChars item_name) k) = true <;>
  by_cases h5 : food_items_5_percent.any (fun k => strContains (lowerChars item_name) k) = true <;>
  simp [List.find?, h1, h2, h3, h4, h5]

/-- C9: when the catalog query succeeds with no row, `get_correct_gst_rate`
is first-match resolution over the ordered keyword table (dry fruits 5%,
electronics 18%, medical 12%, fresh food 0%, restaurant food 5%), with
the `(5.0, null, "Unknown (default 5%)")` default; a name matching both
a dry-fruit and a restaurant-food keyword resolves via dry fruits. -/
theorem get_correct_gst_rate_keyword_order (catalog : Catalog) (item_name : String)
    (h : catalog item_name = Except.ok none) :
    get_correct_gst_rate catalog item_name = keywordFallbackSpec item_name ∧
    keywordFallbackSpec "dry fruit curry" = (5, some "08013200", some "Dry fruits and nuts") ∧
    keywordFallbackSpec "soap" = (5, none, some "Unknown (default 5%)") := by
  refine ⟨?_, by decide, by decide⟩
  unfold get_correct_gst_rate
  rw [h]
  exact keywordFallback_eq_spec item_name

/-- Witness for C9 at a concrete catalog and a doubly-matching name. -/
theorem get_correct_gst_rate_keyword_order_witness :
    get_correct_gst_rate okNoneCatalog "dry fruit curry" = keywordFallbackSpec "dry fruit curry" ∧
    keywordFallbackSpec "dry fruit curry" = (5, some "08013200", some "Dry fruits and nuts") ∧
    keywordFallbackSpec "soap" = (5, none, some "Unknown (default 5%)") :=
  get_correct_gst_rate_keyword_order okNoneCatalog "dry fruit curry" rfl

/-! ## Extraction validation (C7) -/

seal Rat.mul Rat.inv Rat.add Rat.sub Rat.neg Rat.div

theorem mem_ite_singleton {α : Type} (a b : α) (c : Prop) [Decidable c] :
    a ∈ (if c then [b] else ([] : List α)) ↔ c ∧ a = b := by
  split <;> simp_all

theorem mem_ite_ite_singleton {α : Type} (a b b' : α) (h s : Prop)
    [Decidable h] [Decidable s] :
    a ∈ (if h then [b] else if s then [b'] else ([] : List α)) ↔
      (h ∧ a = b) ∨ (¬ h ∧ s ∧ a = b') := by
  split_ifs <;> simp_all

/-- Characterization of the two discount-arithmetic warnings of
`validate_extraction`. -/
theorem discount_warning_chars (g : GeminiResult) (items : List BillLineItem) :
    (Warning.discountRounding ∈ (validate_extraction g items).2 ↔
      ¬ ((if 100 < g.discount.getD 0 then (30 : ℚ) else 1) <
          |g.gross_amount.getD 0 - g.discount.getD 0 - g.subtotal.getD 0|) ∧
        1 < |g.gross_amount.getD 0 - g.discount.getD 0 - g.subtotal.getD 0|) ∧
    (Warning.discountMismatch ∈ (validate_extraction g items).2 ↔
      (if 100 < g.discount.getD 0 then (30 : ℚ) else 1) <
        |g.gross_amount.getD 0 - g.discount.getD 0 - g.subtotal.getD 0|) := by
  constructor <;>
  simp only [validate_extraction, List.mem_append, mem_ite_singleton,
    mem_ite_ite_singleton, reduceCtorEq, and_false, false_and, and_true,
    or_false, false_or]

/-- C7: the confidence score of `validate_extraction` always lies in
`[0, 1]`, and the soft −0.05 discount-arithmetic penalty fires only when
the hard −0.15 penalty (tolerance 30 if discount > 100, else 1) does not:
the soft warning implies the hard tolerance was respected, and the two
warnings never co-occur. -/
theorem validate_extraction_props (g : GeminiResult) (items : List BillLineItem) :
    0 ≤ (validate_extraction g items).1 ∧ (validate_extraction g items).1 ≤ 1 ∧
    (Warning.discountRounding ∈ (validate_extraction g items).2 →
      |g.gross_amount.getD 0 - g.discount.getD 0 - g.subtotal.getD 0| ≤
        (if 100 < g.discount.getD 0 then (30 : ℚ) else 1)) ∧
    ¬ (Warning.discountRounding ∈ (validate_extraction g items).2 ∧
       Warning.discountMismatch ∈ (validate_extraction g items).2) := by
  refine ⟨?_, ?_, ?_, ?_⟩
  · simp only [validate_extraction]
    exact le_max_left 0 _
  · simp only [validate_extraction]
    exact max_le (by norm_num) (min_le_left 1 _)
  · intro hmem
    exact not_lt.mp ((discount_warning_chars g items).1.mp hmem).1
  · rintro ⟨hs, hh⟩
    exact ((discount_warning_chars g items).1.mp hs).1
      ((discount_warning_chars g items).2.mp hh)

/-! ## Result assembly (C2, C5, C6, C8, C10) -/

theorem calculate_correct_gst_nil (s : ℚ) : calculate_correct_gst [] s = (0, 0, 0) := by
  simp [calculate_correct_gst]

/-- Characterization of every field of a successfully assembled
`BillAnalysisResult` in terms of the extracted record. -/
theorem analyze_bill_ok_fields (catalog : Catalog) (g : GeminiResult)
    (r : BillAnalysisResult) (h : analyze_bill catalog g = Except.ok r) :
    r.subtotal = g.subtotal.getD 0 ∧
    r.gross_amount = g.gross_amount.getD 0 ∧
    r.discount = g.discount.getD 0 ∧
    r.grand_total = g.grand_total.getD 0 ∧
    r.total_gst_charged = g.total_gst_charged.getD 0 ∧
    r.total_cgst_charged = g.cgst_charged.getD (g.total_gst_charged.getD 0 / 2) ∧
    r.total_sgst_charged = g.sgst_charged.getD (g.total_gst_charged.getD 0 / 2) ∧
    r.items = g.items.map (normalizeItem catalog) ∧
    r.calculated_total_gst =
      (calculate_correct_gst (g.items.map (normalizeItem catalog)) (g.subtotal.getD 0)).1 ∧
    r.calculated_cgst =
      (calculate_correct_gst (g.items.map (normalizeItem catalog)) (g.subtotal.getD 0)).2.1 ∧
    r.calculated_sgst =
      (calculate_correct_gst (g.items.map (normalizeItem catalog)) (g.subtotal.getD 0)).2.2 ∧
    r.calculated_grand_total = round2 (g.subtotal.getD 0 +
      (calculate_correct_gst (g.items.map (normalizeItem catalog)) (g.subtotal.getD 0)).1) ∧
    r.discrepancy_amount = round2 (g.total_gst_charged.getD 0 -
      (calculate_correct_gst (g.items.map (normalizeItem catalog)) (g.subtotal.getD 0)).1) ∧
    r.has_discrepancy = decide (1/100 < |round2 (g.total_gst_charged.getD 0 -
      (calculate_correct_gst (g.items.map (normalizeItem catalog)) (g.subtotal.getD 0)).1)|) ∧
    r.confidence_score = (validate_extraction g (g.items.map (normalizeItem catalog))).1 ∧
    r.warnings = (validate_extraction g (g.items.map (normalizeItem catalog))).2 := by
  simp only [analyze_bill] at h
  split at h
  · split at h
    · exact absurd h (by simp)
    · injection h with h
      subst h
      exact ⟨rfl, rfl, rfl, rfl, rfl, rfl, rfl, rfl, rfl, rfl, rfl, rfl, rfl, rfl, rfl, rfl⟩
  · injection h with h
    subst h
    exact ⟨rfl, rfl, rfl, rfl, rfl, rfl, rfl, rfl, rfl, rfl, rfl, rfl, rfl, rfl, rfl, rfl⟩

/-- C5 (amended): with an empty item list the calculated tax triple is
`(0, 0, 0)` (the zero-sum guard, no division by zero), and
`has_discrepancy` is determined purely by the charged total GST — it
holds iff `|round(charged, 2)| > 0.01` (not iff `charged ≠ 0`). -/
theorem analyze_bill_empty_items (catalog : Catalog) (g : GeminiResult)
    (r : BillAnalysisResult) (h0 : g.items = [])
    (h : analyze_bill catalog g = Except.ok r) :
    r.calculated_total_gst = 0 ∧ r.calculated_cgst = 0 ∧ r.calculated_sgst = 0 ∧
    (r.has_discrepancy = true ↔ 1/100 < |round2 (g.total_gst_charged.getD 0)|) := by
  obtain ⟨-, -, -, -, -, -, -, -, h9, h10, h11, -, -, h14, -, -⟩ :=
    analyze_bill_ok_fields catalog g r h
  rw [h0] at h9 h10 h11 h14
  simp only [List.map_nil, calculate_correct_gst_nil] at h9 h10 h11 h14
  refine ⟨h9, h10, h11, ?_⟩
  rw [h14, sub_zero, decide_eq_true_eq]

/-- C6: `discrepancy_amount = round(charged − calculated, 2)` and
`has_discrepancy ↔ |discrepancy_amount| > 0.01`; a discrepancy of
exactly 0.01 yields `false` and one of 0.02 yields `true`. -/
theorem analyze_bill_discrepancy_tolerance (catalog : Catalog) (g : GeminiResult)
    (r : BillAnalysisResult) (h : analyze_bill catalog g = Except.ok r) :
    r.discrepancy_amount = round2 (r.total_gst_charged - r.calculated_total_gst) ∧
    (r.has_discrepancy = true ↔ 1/100 < |r.discrepancy_amount|) ∧
    (r.discrepancy_amount = 1/100 → r.has_discrepancy = false) ∧
    (r.discrepancy_amount = 2/100 → r.has_discrepancy = true) := by
  obtain ⟨-, -, -, -, h5, -, -, -, h9, -, -, -, h13, h14, -, -⟩ :=
    analyze_bill_ok_fields catalog g r h
  rw [← h5, ← h9] at h13 h14
  refine ⟨h13, ?_, ?_, ?_⟩
  · rw [h14, ← h13, decide_eq_true_eq]
  · intro he
    rw [h14, ← h13, he, abs_of_nonneg (by norm_num : (0:ℚ) ≤ 1/100)]
    simp only [decide_eq_false_iff_not, not_lt, le_refl]
  · intro he
    rw [h14, ← h13, he, abs_of_nonneg (by norm_num : (0:ℚ) ≤ 2/100),
      decide_eq_true_eq]
    norm_num

/-- C8 (amended): the engine never fails on an absent numeric field:
absent `gross_amount`, `discount`, `subtotal`, `total_gst_charged`,
`grand_total` default to 0.0 and absent item `unit_price`/`total_price`
default to 0.0 (absent `quantity` defaults to 1.0); but absent
`cgst_charged`/`sgst_charged` are carried into the result's bill charges
as half the charged total GST, which is 0.0 only when the charged total
GST is itself 0/absent. -/
theorem analyze_bill_numeric_defaults (catalog : Catalog) (g : GeminiResult)
    (r : BillAnalysisResult) (h : analyze_bill catalog g = Except.ok r) :
    (g.cgst_charged = none → r.total_cgst_charged = g.total_gst_charged.getD 0 / 2) ∧
    (g.sgst_charged = none → r.total_sgst_charged = g.total_gst_charged.getD 0 / 2) ∧
    (g.gross_amount = none → r.gross_amount = 0) ∧
    (g.discount = none → r.discount = 0) ∧
    (g.subtotal = none → r.subtotal = 0) ∧
    (g.total_gst_charged = none → r.total_gst_charged = 0) ∧
    (g.grand_total = none → r.grand_total = 0) ∧
    (∀ it : RawItem, it.quantity = none → (normalizeItem catalog it).quantity = 1) ∧
    (∀ it : RawItem, it.unit_price = none → (normalizeItem catalog it).unit_price = 0) ∧
    (∀ it : RawItem, it.total_price = none → (normalizeItem catalog it).total_price = 0) := by
  obtain ⟨h1, h2, h3, h4, h5, h6, h7, -, -, -, -, -, -, -, -, -⟩ :=
    analyze_bill_ok_fields catalog g r h
  refine ⟨fun hx => ?_, fun hx => ?_, fun hx => ?_, fun hx => ?_, fun hx => ?_,
    fun hx => ?_, fun hx => ?_, fun it hx => ?_, fun it hx => ?_, fun it hx => ?_⟩
  · rw [h6, hx, Option.getD_none]
  · rw [h7, hx, Option.getD_none]
  · rw [h2, hx, Option.getD_none]
  · rw [h3, hx, Option.getD_none]
  · rw [h1, hx, Option.getD_none]
  · rw [h5, hx, Option.getD_none]
  · rw [h4, hx, Option.getD_none]
  · simp [normalizeItem, hx]
  · simp [normalizeItem, hx]
  · simp [normalizeItem, hx]

/-- C10: the result's calculated grand total is rebuilt as
`round(extracted subtotal + calculated total GST, 2)`, never taken from
the bill's stated grand total. -/
theorem analyze_bill_calculated_grand_total (catalog : Catalog) (g : GeminiResult)
    (r : BillAnalysisResult) (h : analyze_bill catalog g = Except.ok r) :
    r.calculated_grand_total = round2 (g.subtotal.getD 0 + r.calculated_total_gst) ∧
    r.subtotal = g.subtotal.getD 0 := by
  obtain ⟨h1, -, -, -, -, -, -, -, h9, -, -, h12, -, -, -, -⟩ :=
    analyze_bill_ok_fields catalog g r h
  exact ⟨by rw [h12, h9], h1⟩

unseal Rat.mul Rat.inv Rat.add Rat.sub Rat.neg Rat.div

def c7Record : GeminiResult :=
  { gross_amount := some 300, discount := some 200, subtotal := some 95 }

/-- Witness for C7 at a record whose soft check fires. -/
theorem validate_extraction_props_witness :
    0 ≤ (validate_extraction c7Record []).1 ∧ (validate_extraction c7Record []).1 ≤ 1 ∧
    Warning.discountRounding ∈ (validate_extraction c7Record []).2 ∧
    |c7Record.gross_amount.getD 0 - c7Record.discount.getD 0 - c7Record.subtotal.getD 0| ≤
      (if 100 < c7Record.discount.getD 0 then (30 : ℚ) else 1) :=
  ⟨(validate_extraction_props c7Record []).1,
   (validate_extraction_props c7Record []).2.1,
   by decide,
   (validate_extraction_props c7Record []).2.2.1 (by decide)⟩

/-! ## Concrete records and results for counterexamples and witnesses -/

/-- An extracted record with every field absent. -/
def emptyRec : GeminiResult := {}

/-- The result of analyzing `emptyRec` against `okNoneCatalog`. -/
def emptyResult : BillAnalysisResult :=
  { bill_number := none, restaurant_name := none, date := none, items := [],
    subtotal := 0, total_gst_charged := 0, total_cgst_charged := 0,
    total_sgst_charged := 0, grand_total := 0, calculated_total_gst := 0,
    calculated_cgst := 0, calculated_sgst := 0, calculated_grand_total := 0,
    has_discrepancy := false, discrepancy_amount := 0, discrepancy_details := [],
    confidence_score := 9/10,
    warnings := [Warning.missingStoreName, Warning.missingBillNumber],
    gross_amount := 0, discount := 0, gstin := none }

/-- A record whose extracted discount is positive while `gross_amount`
is absent (hence defaulted to 0). -/
def zeroGrossDiscountRec : GeminiResult := { discount := some 10 }

/-- An empty-item record whose charged total GST is 0.01. -/
def c5Record : GeminiResult := { total_gst_charged := some (1/100) }

/-- A record with a charged total GST of 10 and no CGST/SGST split. -/
def c8Record : GeminiResult := { total_gst_charged := some 10 }

/-- C2: evaluating the pipeline at the failing input: a positive
extracted discount with zero gross amount makes the discount-note
division `discount / gross_amount` raise `ZeroDivisionError`, so the
analysis does not complete, contradicting the never-raise policy. -/
theorem analyze_bill_zero_gross_discount_raises :
    analyze_bill okNoneCatalog zeroGrossDiscountRec =
      Except.error "ZeroDivisionError: float division by zero" := by decide

/-- C5 counterexample: an empty-item bill whose charged total GST is
0.01 has `has_discrepancy = false` although the charged GST is nonzero,
so `has_discrepancy` is NOT `charged.total_gst ≠ 0`. -/
theorem analyze_bill_empty_items_counterexample :
    c5Record.items = [] ∧ c5Record.total_gst_charged.getD 0 ≠ 0 ∧
    (analyze_bill okNoneCatalog c5Record).map (fun r => r.has_discrepancy) =
      Except.ok false := by decide

/-- Witness for C5 (amended) at the all-absent record. -/
theorem analyze_bill_empty_items_witness :
    emptyResult.calculated_total_gst = 0 ∧ emptyResult.calculated_cgst = 0 ∧
    emptyResult.calculated_sgst = 0 ∧
    (emptyResult.has_discrepancy = true ↔
      1/100 < |round2 (emptyRec.total_gst_charged.getD 0)|) :=
  analyze_bill_empty_items okNoneCatalog emptyRec emptyResult rfl (by decide)

/-- Witness for C6 at the all-absent record. -/
theorem analyze_bill_discrepancy_tolerance_witness :
    emptyResult.discrepancy_amount =
      round2 (emptyResult.total_gst_charged - emptyResult.calculated_total_gst) ∧
    (emptyResult.has_discrepancy = true ↔ 1/100 < |emptyResult.discrepancy_amount|) ∧
    (emptyResult.discrepancy_amount = 1/100 → emptyResult.has_discrepancy = false) ∧
    (emptyResult.discrepancy_amount = 2/100 → emptyResult.has_discrepancy = true) :=
  analyze_bill_discrepancy_tolerance okNoneCatalog emptyRec emptyResult (by decide)

/-- C8 counterexample: with `total_gst_charged = 10` extracted and
`cgst_charged` absent, the result's bill CGST charge is 5.0 (half the
charged GST), not 0.0. -/
theorem analyze_bill_cgst_default_counterexample :
    c8Record.cgst_charged = none ∧
    (analyze_bill okNoneCatalog c8Record).map (fun r => r.total_cgst_charged) =
      Except.ok 5 ∧ (5 : ℚ) ≠ 0 := by decide

/-- Witness for C8 (amended) at the all-absent record. -/
theorem analyze_bill_numeric_defaults_witness :
    (emptyRec.cgst_charged = none →
      emptyResult.total_cgst_charged = emptyRec.total_gst_charged.getD 0 / 2) ∧
    (emptyRec.sgst_charged = none →
      emptyResult.total_sgst_charged = emptyRec.total_gst_charged.getD 0 / 2) ∧
    (emptyRec.gross_amount = none → emptyResult.gross_amount = 0) ∧
    (emptyRec.discount = none → emptyResult.discount = 0) ∧
    (emptyRec.subtotal = none → emptyResult.subtotal = 0) ∧
    (emptyRec.total_gst_charged = none → emptyResult.total_gst_charged = 0) ∧
    (emptyRec.grand_total = none → emptyResult.grand_total = 0) ∧
    (∀ it : RawItem, it.quantity = none → (normalizeItem okNoneCatalog it).quantity = 1) ∧
    (∀ it : RawItem, it.unit_price = none → (normalizeItem okNoneCatalog it).unit_price = 0) ∧
    (∀ it : RawItem, it.total_price = none → (normalizeItem okNoneCatalog it).total_price = 0) :=
  analyze_bill_numeric_defaults okNoneCatalog emptyRec emptyResult (by decide)

/-- Witness for C10 at the all-absent record. -/
theorem analyze_bill_calculated_grand_total_witness :
    emptyResult.calculated_grand_total =
      round2 (emptyRec.subtotal.getD 0 + emptyResult.calculated_total_gst) ∧
    emptyResult.subtotal = emptyRec.subtotal.getD 0 :=
  analyze_bill_calculated_grand_total okNoneCatalog emptyRec emptyResult (by decide)

end GSTBill
